import Mathlib

/-!
Shallow embedding of the XML-RPC codec and the AIR gateway layer of the
repository (src/air/XmlRpcClient.ts and src/air/AIRService.ts, together with
the interfaces of src/air/types.ts).

Modelling conventions:
* JavaScript runtime values fed to `buildValue` are modelled by the inductive
  `Value`.  JavaScript has a single `number` type; the embedding refines it
  into `vInt` (a number for which `Number.isInteger` is true) and `vDouble`
  (an arbitrary numeral, carried as a rational so that integrality is exact
  and NaN/Infinity cannot arise).  `vNull` and `vUndefined` model the
  untagged JavaScript values reaching the encoder's fallback branch.
* The wire element produced by the encoder and consumed by the decoder is the
  inductive `Wire`, one constructor per XML-RPC tag that the code handles
  (`string`, `int`, `i4`, `double`, `boolean`, `dateTime.iso8601`, `array`,
  `struct`).  Numeric payloads are carried exactly; `parseInt`/`parseFloat`
  on such payloads are the identity.
* JavaScript truthiness (`x || d`, `if (x)`) is modelled explicitly by
  `truthy`, `jsOr`, `jsOrNum`: `0`, the empty string, `false`, `null` and
  `undefined` are falsy, everything else is truthy.
* Mutable object state (`this.stats`, `this.roundRobinIndexes`, ...) is
  explicit state passing: each stateful method returns its result together
  with the successor state; a thrown exception is an `Except.error` carrying
  the message string.
-/

/-- JavaScript values reaching the codec (`buildValue(value: any)`). -/
inductive Value where
  | vStr : String → Value
  | vInt : Int → Value
  | vDouble : ℚ → Value
  | vBool : Bool → Value
  | vDate : Int → Value
  | vArr : List Value → Value
  | vStruct : List (String × Value) → Value
  | vNull : Value
  | vUndefined : Value

/-- XML-RPC wire value elements, one constructor per tag handled by
`XmlRpcClient.extractValue`. -/
inductive Wire where
  | wString : String → Wire
  | wInt : Int → Wire
  | wI4 : Int → Wire
  | wDouble : ℚ → Wire
  | wBoolean : Int → Wire
  | wDateTime : Int → Wire
  | wArray : List Wire → Wire
  | wStruct : List (String × Wire) → Wire

mutual

/-- `XmlRpcClient.buildValue` (src/air/XmlRpcClient.ts lines 81-113):
dispatch on the runtime type of the input.  A number is encoded as an `int`
element when `Number.isInteger` holds (for a rational: denominator 1) and as
a `double` element otherwise; a boolean becomes a 0/1-valued `boolean`
element; the fallback branch renders the input with `String(value)`, so
`null` becomes the string "null" and `undefined` the string "undefined". -/
def buildValue : Value → Wire
  | .vStr s => .wString s
  | .vInt n => .wInt n
  | .vDouble q => if q.den = 1 then .wInt q.num else .wDouble q
  | .vBool b => .wBoolean (if b then 1 else 0)
  | .vDate t => .wDateTime t
  | .vArr items => .wArray (buildValueList items)
  | .vStruct ms => .wStruct (buildValueMembers ms)
  | .vNull => .wString "null"
  | .vUndefined => .wString "undefined"

/-- `value.map(item => this.buildValue(item))` over an array. -/
def buildValueList : List Value → List Wire
  | [] => []
  | v :: t => buildValue v :: buildValueList t

/-- `Object.entries(value).map(([name, val]) => ({name, value: buildValue(val)}))`
over a struct. -/
def buildValueMembers : List (String × Value) → List (String × Wire)
  | [] => []
  | (n, v) :: t => (n, buildValue v) :: buildValueMembers t

end

/-- Assignment `result[name] = v` on a JavaScript object represented as an
insertion-ordered association list: an existing key keeps its position and has
its value overwritten, a new key is appended. -/
def upsert : List (String × Value) → String → Value → List (String × Value)
  | [], n, v => [(n, v)]
  | (k, w) :: t, n, v => if k = n then (k, v) :: t else (k, w) :: upsert t n v

mutual

/-- `XmlRpcClient.extractValue` (src/air/XmlRpcClient.ts lines 151-180):
dispatch on the tag present on the wire element.  `int` and `i4` are both
parsed with `parseInt`; `boolean` applies JavaScript `Boolean(...)` to the
0/1 payload; arrays decode elementwise; struct members are folded into a
JavaScript object, duplicate names overwriting earlier ones. -/
def extractValue : Wire → Value
  | .wString s => .vStr s
  | .wInt n => .vInt n
  | .wI4 n => .vInt n
  | .wDouble q => .vDouble q
  | .wBoolean b => .vBool (b != 0)
  | .wDateTime t => .vDate t
  | .wArray l => .vArr (extractValueList l)
  | .wStruct ms => .vStruct (extractValueMembers ms [])

/-- `values.map(v => this.extractValue(v))` over an array element. -/
def extractValueList : List Wire → List Value
  | [] => []
  | w :: t => extractValue w :: extractValueList t

/-- `members.forEach(member => result[member.name] = extractValue(member.value))`:
a left fold of `upsert` over the member list, starting from the empty object. -/
def extractValueMembers : List (String × Wire) → List (String × Value) → List (String × Value)
  | [], acc => acc
  | (n, w) :: t, acc => extractValueMembers t (upsert acc n (extractValue w))

end

/-- Keys already present in a JavaScript object. -/
def hasKey : List (String × Value) → String → Bool
  | [], _ => false
  | (k, _) :: t, n => k = n || hasKey t n

/-- Membership of a name in a list of member names. -/
def memStr : List String → String → Bool
  | [], _ => false
  | k :: t, n => k = n || memStr t n

/-- Distinctness of a list of member names. -/
def distinctKeys : List String → Bool
  | [] => true
  | k :: t => !(memStr t k) && distinctKeys t

mutual

/-- The `Value` trees quantified over by the round-trip property: built from
the seven tagged variants only (no `null`/`undefined`), with member names
unique within each struct. -/
def wfValue : Value → Bool
  | .vStr _ => true
  | .vInt _ => true
  | .vDouble _ => true
  | .vBool _ => true
  | .vDate _ => true
  | .vArr items => wfValueList items
  | .vStruct ms => distinctKeys (ms.map Prod.fst) && wfValueMembers ms
  | .vNull => false
  | .vUndefined => false

def wfValueList : List Value → Bool
  | [] => true
  | v :: t => wfValue v && wfValueList t

def wfValueMembers : List (String × Value) → Bool
  | [] => true
  | (_, v) :: t => wfValue v && wfValueMembers t

end

mutual

/-- The documented decode-of-encode normal form: a `Double` whose numeral is
integral comes back as an `Integer`; every other variant is fixed. -/
def canonValue : Value → Value
  | .vStr s => .vStr s
  | .vInt n => .vInt n
  | .vDouble q => if q.den = 1 then .vInt q.num else .vDouble q
  | .vBool b => .vBool b
  | .vDate t => .vDate t
  | .vArr items => .vArr (canonValueList items)
  | .vStruct ms => .vStruct (canonValueMembers ms)
  | .vNull => .vNull
  | .vUndefined => .vUndefined

def canonValueList : List Value → List Value
  | [] => []
  | v :: t => canonValue v :: canonValueList t

def canonValueMembers : List (String × Value) → List (String × Value)
  | [] => []
  | (n, v) :: t => (n, canonValue v) :: canonValueMembers t

end

mutual

/-- No `Double` anywhere in the tree has an integral numeral (the inputs on
which decode-of-encode is the identity). -/
def noIntegralDouble : Value → Bool
  | .vStr _ => true
  | .vInt _ => true
  | .vDouble q => q.den != 1
  | .vBool _ => true
  | .vDate _ => true
  | .vArr items => noIntegralDoubleList items
  | .vStruct ms => noIntegralDoubleMembers ms
  | .vNull => true
  | .vUndefined => true

def noIntegralDoubleList : List Value → Bool
  | [] => true
  | v :: t => noIntegralDouble v && noIntegralDoubleList t

def noIntegralDoubleMembers : List (String × Value) → Bool
  | [] => true
  | (_, v) :: t => noIntegralDouble v && noIntegralDoubleMembers t

end

/-! ### Round-trip lemmas for the value codec -/

theorem memStr_of_mem : ∀ {l : List String} {n : String}, n ∈ l → memStr l n = true := by
  intro l n h
  induction l with
  | nil => cases h
  | cons k t ih =>
    rcases List.mem_cons.mp h with h1 | h2
    · simp [memStr, h1]
    · simp [memStr, ih h2]

theorem hasKey_append_single (acc : List (String × Value)) (k n : String) (v : Value) :
    hasKey (acc ++ [(k, v)]) n = (hasKey acc n || decide (k = n)) := by
  induction acc with
  | nil => simp [hasKey]
  | cons p t ih => cases p; simp [hasKey, ih, Bool.or_assoc]

theorem upsert_of_hasKey_eq_false (acc : List (String × Value)) (n : String) (v : Value)
    (h : hasKey acc n = false) : upsert acc n v = acc ++ [(n, v)] := by
  induction acc with
  | nil => simp [upsert]
  | cons p t ih =>
    cases p with
    | mk k w =>
      simp [hasKey] at h
      simp [upsert, h.1, ih h.2]

mutual

theorem roundtrip_value : ∀ (v : Value), wfValue v = true →
    extractValue (buildValue v) = canonValue v
  | .vStr s, _ => by simp [buildValue, extractValue, canonValue]
  | .vInt n, _ => by simp [buildValue, extractValue, canonValue]
  | .vDouble q, _ => by
      by_cases h : q.den = 1 <;> simp [buildValue, extractValue, canonValue, h]
  | .vBool b, _ => by cases b <;> simp [buildValue, extractValue, canonValue]
  | .vDate t, _ => by simp [buildValue, extractValue, canonValue]
  | .vArr items, h => by
      simp only [wfValue] at h
      simp [buildValue, extractValue, canonValue, roundtrip_list items h]
  | .vStruct ms, h => by
      simp only [wfValue, Bool.and_eq_true] at h
      simpa [buildValue, extractValue, canonValue] using
        roundtrip_members ms [] h.2 h.1 (by intro p _; simp [hasKey])

theorem roundtrip_list : ∀ (l : List Value), wfValueList l = true →
    extractValueList (buildValueList l) = canonValueList l
  | [], _ => by simp [buildValueList, extractValueList, canonValueList]
  | v :: t, h => by
      simp only [wfValueList, Bool.and_eq_true] at h
      simp [buildValueList, extractValueList, canonValueList,
        roundtrip_value v h.1, roundtrip_list t h.2]

theorem roundtrip_members : ∀ (ms : List (String × Value)) (acc : List (String × Value)),
    wfValueMembers ms = true → distinctKeys (ms.map Prod.fst) = true →
    (∀ p ∈ ms, hasKey acc p.1 = false) →
    extractValueMembers (buildValueMembers ms) acc = acc ++ canonValueMembers ms
  | [], acc, _, _, _ => by simp [buildValueMembers, extractValueMembers, canonValueMembers]
  | (n, v) :: t, acc, hwf, hnd, hdisj => by
      simp only [wfValueMembers, Bool.and_eq_true] at hwf
      simp only [List.map_cons, distinctKeys, Bool.and_eq_true, Bool.not_eq_eq_eq_not,
        Bool.not_true] at hnd
      have hacc : hasKey acc n = false := hdisj (n, v) (List.mem_cons_self _ _)
      have hstep :
          upsert acc n (extractValue (buildValue v)) = acc ++ [(n, canonValue v)] := by
        rw [roundtrip_value v hwf.1, upsert_of_hasKey_eq_false acc n (canonValue v) hacc]
      have hdisj2 : ∀ p ∈ t, hasKey (acc ++ [(n, canonValue v)]) p.1 = false := by
        intro p hp
        rw [hasKey_append_single]
        have h1 : hasKey acc p.1 = false := hdisj p (List.mem_cons_of_mem _ hp)
        have h2 : ¬ (n = p.1) := by
          intro he
          have : memStr (t.map Prod.fst) n = true :=
            memStr_of_mem (by rw [he]; exact List.mem_map_of_mem Prod.fst hp)
          rw [this] at hnd
          exact Bool.true_eq_false.mp hnd.1
        simp [h1, h2]
      calc extractValueMembers (buildValueMembers ((n, v) :: t)) acc
          = extractValueMembers (buildValueMembers t) (acc ++ [(n, canonValue v)]) := by
            simp [buildValueMembers, extractValueMembers, hstep]
        _ = (acc ++ [(n, canonValue v)]) ++ canonValueMembers t :=
            roundtrip_members t (acc ++ [(n, canonValue v)]) hwf.2 hnd.2 hdisj2
        _ = acc ++ canonValueMembers ((n, v) :: t) := by
            simp [canonValueMembers]

end

mutual

theorem canon_id_value : ∀ (v : Value), noIntegralDouble v = true → canonValue v = v
  | .vStr s, _ => by simp [canonValue]
  | .vInt n, _ => by simp [canonValue]
  | .vDouble q, h => by
      simp only [noIntegralDouble, bne_iff_ne, ne_eq] at h
      simp [canonValue, h]
  | .vBool b, _ => by simp [canonValue]
  | .vDate t, _ => by simp [canonValue]
  | .vArr items, h => by
      simp only [noIntegralDouble] at h
      simp [canonValue, canon_id_list items h]
  | .vStruct ms, h => by
      simp only [noIntegralDouble] at h
      simp [canonValue, canon_id_members ms h]
  | .vNull, _ => by simp [canonValue]
  | .vUndefined, _ => by simp [canonValue]

theorem canon_id_list : ∀ (l : List Value), noIntegralDoubleList l = true →
    canonValueList l = l
  | [], _ => by simp [canonValueList]
  | v :: t, h => by
      simp only [noIntegralDoubleList, Bool.and_eq_true] at h
      simp [canonValueList, canon_id_value v h.1, canon_id_list t h.2]

theorem canon_id_members : ∀ (ms : List (String × Value)), noIntegralDoubleMembers ms = true →
    canonValueMembers ms = ms
  | [], _ => by simp [canonValueMembers]
  | (n, v) :: t, h => by
      simp only [noIntegralDoubleMembers, Bool.and_eq_true] at h
      simp [canonValueMembers, canon_id_value v h.1, canon_id_members t h.2]

end

/-- The rational 5/2, given in normal form so that its fields reduce. -/
def sampleRat : ℚ := ⟨5, 2, by decide, by decide⟩

/-- A sample well-formed value tree used to witness the round-trip theorem. -/
def sampleValue : Value :=
  .vStruct [("a", .vArr [.vInt 3, .vDouble sampleRat, .vBool true]),
            ("b", .vStr "x"), ("c", .vDate 99)]

/-- C1: for every finite `Value` tree built from the seven tagged variants
(strings, integers, doubles, booleans, date-times, arrays, structs — doubles
carried as rationals, so NaN/Infinity cannot occur), decoding the encoding
yields the tree again up to the documented asymmetry: a `Double` whose numeral
is integral decodes back as an `Integer` (`canonValue`); on trees with no
integral-numeral `Double`, decode-of-encode is the identity. -/
theorem c1_decode_encode_roundtrip (v : Value) (hv : wfValue v = true) :
    extractValue (buildValue v) = canonValue v ∧
    (noIntegralDouble v = true → extractValue (buildValue v) = v) := by
  refine ⟨roundtrip_value v hv, fun hd => ?_⟩
  rw [roundtrip_value v hv, canon_id_value v hd]

/-- Witness for C1 at a concrete struct/array/scalar tree. -/
theorem c1_decode_encode_roundtrip_witness :
    wfValue sampleValue = true ∧ noIntegralDouble sampleValue = true ∧
      extractValue (buildValue sampleValue) = sampleValue :=
  ⟨by decide, by decide,
    (c1_decode_encode_roundtrip sampleValue (by decide)).2 (by decide)⟩

/-! ### Response parsing and the HTTP transport (`parseXmlRpcResponse`, `call`) -/

/-- JavaScript truthiness of a value: `0`, the empty string, `false`, `null`
and `undefined` are falsy; objects, arrays and dates are always truthy. -/
def truthy : Value → Bool
  | .vStr s => s ≠ ""
  | .vInt n => n ≠ 0
  | .vDouble q => q ≠ 0
  | .vBool b => b
  | .vDate _ => true
  | .vArr _ => true
  | .vStruct _ => true
  | .vNull => false
  | .vUndefined => false

/-- JavaScript `a || b`. -/
def jsOr (a b : Value) : Value := if truthy a then a else b

/-- First member of an object with the given name. -/
def lookupMember : List (String × Value) → String → Option Value
  | [], _ => none
  | (k, v) :: t, n => if k = n then some v else lookupMember t n

/-- JavaScript property access `obj[name]`: a member's value (or `undefined`)
on an object, a thrown `TypeError` on `null`/`undefined`, and `undefined` on
every other primitive. -/
def getProp : Value → String → Except String Value
  | .vStruct ms, n => .ok ((lookupMember ms n).getD .vUndefined)
  | .vNull, n => .error ("TypeError: cannot read " ++ n ++ " of null")
  | .vUndefined, n => .error ("TypeError: cannot read " ++ n ++ " of undefined")
  | _, _ => .ok .vUndefined

/-- The parsed `methodResponse` envelope: the optional `fault` element's inner
value, and the optional `params` element's list of param values (the
`Array.isArray` normalization of a collapsed singleton is already folded into
the list representation). -/
structure MethodResponse where
  fault : Option Wire
  params : Option (List Wire)

/-- `UCIPResponse` (src/air/types.ts): `responseCode` plus optional
`responseMessage` and `data`; the fields produced by the parser are modelled
as decoded `Value`s. -/
structure UCIPResp where
  responseCode : Value
  responseMessage : Option Value
  data : Option Value

/-- `XmlRpcClient.parseXmlRpcResponse` (src/air/XmlRpcClient.ts lines 118-146):
a fault element is decoded with `extractValue` and mapped through JavaScript
`||` defaulting (`fault.faultCode || -1`, `fault.faultString || 'Unknown
fault'`); otherwise a params element yields `responseCode 0` with the single
decoded value or the list of decoded values; an envelope with neither is an
error. -/
def parseXmlRpcResponse (r : MethodResponse) : Except String UCIPResp :=
  match r.fault with
  | some fw =>
    let fault := extractValue fw
    match getProp fault "faultCode", getProp fault "faultString" with
    | .ok fc, .ok fs =>
        .ok { responseCode := jsOr fc (.vInt (-1)),
              responseMessage := some (jsOr fs (.vStr "Unknown fault")),
              data := none }
    | .error e, _ => .error e
    | .ok _, .error e => .error e
  | none =>
    match r.params with
    | some ps =>
        let d := ps.map extractValue
        .ok { responseCode := .vInt 0, responseMessage := none,
              data := some (match d with | [x] => x | _ => .vArr d) }
    | none => .error "Invalid XML-RPC response format"

/-- `XmlRpcClient.call` (src/air/XmlRpcClient.ts lines 185-212), with the POST
exchange abstracted to the observed HTTP status, status text and parsed body:
a status other than exactly 200 throws `HTTP {status}: {statusText}`; a 200
body is handed to `parseXmlRpcResponse`, whose outcome (including a parse
error) propagates to the caller unchanged. -/
def call (status : Nat) (statusText : String) (body : MethodResponse) :
    Except String UCIPResp :=
  if status ≠ 200 then .error ("HTTP " ++ toString status ++ ": " ++ statusText)
  else parseXmlRpcResponse body

/-- C2 counterexample: a fault whose `faultCode` member is present with value
`0` decodes to `responseCode = -1`, not to the present `faultCode` value `0`
as the claim states (`fault.faultCode || -1` tests truthiness, not
presence). -/
theorem c2_fault_zero_counterexample :
    parseXmlRpcResponse
        { fault := some (.wStruct [("faultCode", .wInt 0), ("faultString", .wString "x")]),
          params := none } =
      .ok { responseCode := .vInt (-1), responseMessage := some (.vStr "x"), data := none } ∧
    Value.vInt (-1) ≠ Value.vInt 0 :=
  ⟨rfl, by simp⟩

/-- C2 (amended): decoding a fault element maps a *truthy* present `faultCode`
(a nonzero integer) to `responseCode` and a *truthy* present `faultString`
(a nonempty string) to `responseMessage`; an absent — or falsy, e.g. `0` or
`""` — member yields the defaults `-1` and `"Unknown fault"`. -/
theorem c2_fault_mapping (c : Int) (s : String) (p1 p2 p3 : Option (List Wire))
    (hc : c ≠ 0) (hs : s ≠ "") :
    parseXmlRpcResponse
        { fault := some (.wStruct [("faultCode", .wInt c), ("faultString", .wString s)]),
          params := p1 } =
      .ok { responseCode := .vInt c, responseMessage := some (.vStr s), data := none } ∧
    parseXmlRpcResponse { fault := some (.wStruct []), params := p2 } =
      .ok { responseCode := .vInt (-1),
            responseMessage := some (.vStr "Unknown fault"), data := none } ∧
    parseXmlRpcResponse
        { fault := some (.wStruct [("faultCode", .wInt 0), ("faultString", .wString "")]),
          params := p3 } =
      .ok { responseCode := .vInt (-1),
            responseMessage := some (.vStr "Unknown fault"), data := none } := by
  refine ⟨?_, rfl, rfl⟩
  simp [parseXmlRpcResponse, extractValue, extractValueMembers, upsert, getProp,
    lookupMember, jsOr, truthy, hc, hs]

/-- Witness for C2: `faultCode=102`, `faultString="INSUFFICIENT_BALANCE"`
decodes to `responseCode 102` with that message. -/
theorem c2_fault_mapping_witness :
    (102 : Int) ≠ 0 ∧ "INSUFFICIENT_BALANCE" ≠ "" ∧
    parseXmlRpcResponse
        { fault := some (.wStruct [("faultCode", .wInt 102),
                                   ("faultString", .wString "INSUFFICIENT_BALANCE")]),
          params := none } =
      .ok { responseCode := .vInt 102,
            responseMessage := some (.vStr "INSUFFICIENT_BALANCE"), data := none } :=
  ⟨by decide, by decide,
    (c2_fault_mapping 102 "INSUFFICIENT_BALANCE" none none none (by decide) (by decide)).1⟩

/-- A well-formed success body used in the transport theorems. -/
def okBody : MethodResponse := { fault := none, params := some [.wInt 5] }

/-- C5 counterexample: status 204 is a 2xx status, but the code tests
`status !== 200`, so the body is not decoded — the call throws
`HTTP 204: No Content` even though the body would decode successfully. -/
theorem c5_status_204_counterexample :
    call 204 "No Content" okBody = .error "HTTP 204: No Content" ∧
    parseXmlRpcResponse okBody =
      .ok { responseCode := .vInt 0, responseMessage := none, data := some (.vInt 5) } :=
  ⟨rfl, rfl⟩

/-- C5 (amended): the transport accepts exactly status 200: any other status
(non-2xx, and also 2xx statuses other than 200) raises a transport error
carrying the status, with no retry; a 200 body is decoded by the codec and
the decoded `Response` (or decode error) is returned unchanged. -/
theorem c5_transport_status (status : Nat) (statusText : String) (body : MethodResponse) :
    (status ≠ 200 →
      call status statusText body = .error ("HTTP " ++ toString status ++ ": " ++ statusText)) ∧
    (status = 200 → call status statusText body = parseXmlRpcResponse body) := by
  constructor <;> intro h <;> simp [call, h]

/-- Witness for C5 at status 500 (error branch) and status 200 (decode
branch). -/
theorem c5_transport_status_witness :
    call 500 "Internal Server Error" okBody = .error "HTTP 500: Internal Server Error" ∧
    call 200 "OK" okBody = parseXmlRpcResponse okBody :=
  ⟨(c5_transport_status 500 "Internal Server Error" okBody).1 (by decide),
   (c5_transport_status 200 "OK" okBody).2 rfl⟩

/-! ### The AIR gateway service (`AIRService`) -/

/-- `RoutingDestination` (src/air/types.ts). -/
structure RoutingDestination where
  nodeId : String
  host : String
  port : Nat
  url : String
  active : Bool
deriving DecidableEq

/-- An `XmlRpcClient` instance registered in `AIRService.clients`, identified
by the endpoint URL it was constructed with. -/
structure ClientM where
  url : String
deriving DecidableEq

/-- `TransactionStats` (src/air/types.ts): the `number` counters and the
exact value of the moving average, plus `lastResetTime` as an epoch
timestamp. -/
structure TransactionStats where
  totalRequests : Nat
  successfulRequests : Nat
  failedRequests : Nat
  averageResponseTime : ℚ
  lastResetTime : Int
deriving DecidableEq

/-- The mutable fields of the `AIRService` singleton: the two `Map`s and the
round-robin cursor map as insertion-ordered association lists, the statistics
record, whether the periodic reporting timer is running (`statsInterval`),
and the `initialized` flag. -/
structure AIRState where
  clients : List (String × ClientM)
  routingTable : List (String × List RoutingDestination)
  roundRobinIndexes : List (String × Nat)
  stats : TransactionStats
  statsReporting : Bool
  initialized : Bool
deriving DecidableEq

/-- `Map.get`: first value bound to the key, in insertion order. -/
def assoc {α : Type} : List (String × α) → String → Option α
  | [], _ => none
  | (k, v) :: t, n => if k = n then some v else assoc t n

/-- `Map.set`: an existing key keeps its position and has its value replaced,
a new key is appended. -/
def setKey {α : Type} : List (String × α) → String → α → List (String × α)
  | [], n, v => [(n, v)]
  | (k, w) :: t, n, v => if k = n then (k, v) :: t else (k, w) :: setKey t n v

/-- The default-client fallback of `AIRService.getClient` (lines 374-379):
`this.clients.values().next().value` — the first registered client in
insertion order, or a thrown error when the registry is empty. -/
def defaultClient (st : AIRState) : Except String ClientM × AIRState :=
  match st.clients with
  | [] => (.error "No AIR clients available", st)
  | (_, c) :: _ => (.ok c, st)

/-- The `afType` branch of `AIRService.getClient` (lines 355-372): look up the
destination list for the routing key (`if (afType)` is a truthiness test, so
the empty string falls through to the default client); with destinations
present, read the cursor (`|| 0`), pick `destinations[index % len]`, store
`(index + 1) % len`, and return the client registered under the chosen
destination's node id. -/
def getClientByAf (st : AIRState) (afType : Option String) :
    Except String ClientM × AIRState :=
  match afType with
  | some af =>
    if af ≠ "" then
      match assoc st.routingTable af with
      | some dests =>
        if h : dests.length = 0 then
          (.error ("No destinations found for AF type: " ++ af), st)
        else
          let index := (assoc st.roundRobinIndexes af).getD 0
          let dest := dests.get ⟨index % dests.length, Nat.mod_lt _ (Nat.pos_of_ne_zero h)⟩
          let st1 := { st with
            roundRobinIndexes := setKey st.roundRobinIndexes af ((index + 1) % dests.length) }
          match assoc st1.clients dest.nodeId with
          | some c => (.ok c, st1)
          | none => (.error ("AIR client not found for node: " ++ dest.nodeId), st1)
      | none => (.error ("No destinations found for AF type: " ++ af), st)
    else defaultClient st
  | none => defaultClient st

/-- `AIRService.getClient` (src/air/AIRService.ts lines 346-380): `if (nodeId)`
is a truthiness test, so a present non-empty node id is looked up directly
(no cursor is touched) and a missing registration throws; an absent — or
empty — node id falls through to the routing-key branch. -/
def getClient (st : AIRState) (nodeId afType : Option String) :
    Except String ClientM × AIRState :=
  match nodeId with
  | some nid =>
    if nid ≠ "" then
      match assoc st.clients nid with
      | some c => (.ok c, st)
      | none => (.error ("AIR client not found for node: " ++ nid), st)
    else getClientByAf st afType
  | none => getClientByAf st afType

/-- `n` successive selections through `AIRService.getClient` for a fixed
routing key, collecting the outcomes and threading the service state. -/
def selectRun (st : AIRState) (k : String) : Nat → List (Except String ClientM) × AIRState
  | 0 => ([], st)
  | n + 1 =>
    let r := getClient st none (some k)
    let rest := selectRun r.2 k n
    (r.1 :: rest.1, rest.2)

/-- `AIRService.updateStats` (lines 494-505): bump the success or failure
counter, then `averageResponseTime = alpha * responseTime + (1 - alpha) *
averageResponseTime` with `alpha = 0.1`. -/
def updateStats (s : TransactionStats) (success : Bool) (responseTime : ℚ) :
    TransactionStats :=
  let s1 := if success
    then { s with successfulRequests := s.successfulRequests + 1 }
    else { s with failedRequests := s.failedRequests + 1 }
  let alpha : ℚ := 1 / 10
  { s1 with averageResponseTime :=
      alpha * responseTime + (1 - alpha) * s1.averageResponseTime }

/-- `updateStats` lifted to the service state. -/
def updateStatsS (st : AIRState) (success : Bool) (t : ℚ) : AIRState :=
  { st with stats := updateStats st.stats success t }

/-- `UCIPRequest` (src/air/types.ts): method name and parameter values. -/
structure UCIPRequest where
  methodName : String
  params : List Value

/-- `AIRService.executeRequest` (lines 385-407): throw `AIR service not
initialized` before touching anything when not initialized; otherwise bump
`totalRequests`, route with `getClient`, perform the remote call (abstracted
by the `net` argument), and update the statistics with the elapsed time on
both the success and the failure path, re-raising the error on failure. -/
def executeRequest (st : AIRState) (net : ClientM → UCIPRequest → Except String UCIPResp)
    (elapsed : ℚ) (request : UCIPRequest) (nodeId afType : Option String) :
    Except String UCIPResp × AIRState :=
  if st.initialized = false then (.error "AIR service not initialized", st)
  else
    let st1 := { st with stats := { st.stats with
      totalRequests := st.stats.totalRequests + 1 } }
    match getClient st1 nodeId afType with
    | (.ok c, st2) =>
      match net c request with
      | .ok resp => (.ok resp, updateStatsS st2 true elapsed)
      | .error e => (.error e, updateStatsS st2 false elapsed)
    | (.error e, st2) => (.error e, updateStatsS st2 false elapsed)

/-- JavaScript `o || d` on an optional number field. -/
def jsOrNum (o : Option Int) (d : Int) : Int :=
  match o with
  | some n => if n ≠ 0 then n else d
  | none => d

/-- JavaScript `o || d` on an optional string field. -/
def jsOrStr (o : Option String) (d : String) : String :=
  match o with
  | some s => if s ≠ "" then s else d
  | none => d

/-- `GetBalanceRequest` (src/air/types.ts). -/
structure GetBalanceRequest where
  subscriberNumber : String
  requestedInformationFlags : Option Int

/-- `RefillRequest` (src/air/types.ts); the amount is a JavaScript number. -/
structure RefillRequest where
  subscriberNumber : String
  refillAmount : ℚ
  transactionId : Option String
  transactionCurrency : Option String
  profileId : Option String

/-- `UpdateBalanceRequest` (src/air/types.ts). -/
structure UpdateBalanceRequest where
  subscriberNumber : String
  adjustmentAmount : ℚ
  transactionId : Option String
  transactionType : Option String

/-- `GetAccountDetailsRequest` (src/air/types.ts). -/
structure GetAccountDetailsRequest where
  subscriberNumber : String
  requestedInformationFlags : Option Int

/-- Left-pad with a fill character (`String.padStart`). -/
def padLeft (s : String) (n : Nat) (c : Char) : String :=
  String.mk (List.replicate (n - s.length) c) ++ s

/-- `AIRService.generateTransactionId` (lines 485-489), with `Date.now()` and
the random draw (`Math.floor(Math.random() * 10000)`) passed in. -/
def generateTransactionId (nowMillis : Int) (rand : Nat) : String :=
  "TXN" ++ toString nowMillis ++ padLeft (toString rand) 4 '0'

/-- The `UCIPRequest` built by `AIRService.getBalance` (lines 412-424):
`requestedInformationFlags || 0`. -/
def getBalanceRequest (r : GetBalanceRequest) : UCIPRequest :=
  { methodName := "GetBalanceAndDate",
    params := [.vStruct
      [("subscriberNumber", .vStr r.subscriberNumber),
       ("requestedInformationFlags", .vInt (jsOrNum r.requestedInformationFlags 0))]] }

/-- The `UCIPRequest` built by `AIRService.refill` (lines 429-444). -/
def refillRequest (r : RefillRequest) (genId : String) : UCIPRequest :=
  { methodName := "Refill",
    params := [.vStruct
      [("subscriberNumber", .vStr r.subscriberNumber),
       ("refillAmount", .vDouble r.refillAmount),
       ("transactionId", .vStr (jsOrStr r.transactionId genId)),
       ("transactionCurrency", .vStr (jsOrStr r.transactionCurrency "USD")),
       ("profileId", .vStr (jsOrStr r.profileId ""))]] }

/-- The `UCIPRequest` built by `AIRService.updateBalance` (lines 449-463). -/
def updateBalanceRequest (r : UpdateBalanceRequest) (genId : String) : UCIPRequest :=
  { methodName := "UpdateBalanceAndDate",
    params := [.vStruct
      [("subscriberNumber", .vStr r.subscriberNumber),
       ("adjustmentAmount", .vDouble r.adjustmentAmount),
       ("transactionId", .vStr (jsOrStr r.transactionId genId)),
       ("transactionType", .vStr (jsOrStr r.transactionType "ADJUSTMENT"))]] }

/-- The `UCIPRequest` built by `AIRService.getAccountDetails` (lines 468-480):
`requestedInformationFlags || 0xFFFFFFFF`. -/
def getAccountDetailsRequest (r : GetAccountDetailsRequest) : UCIPRequest :=
  { methodName := "GetAccountDetails",
    params := [.vStruct
      [("subscriberNumber", .vStr r.subscriberNumber),
       ("requestedInformationFlags",
         .vInt (jsOrNum r.requestedInformationFlags 4294967295))]] }

/-- `AIRService.getBalance`: build the request and delegate to
`executeRequest` with no node id. -/
def getBalance (st : AIRState) (net : ClientM → UCIPRequest → Except String UCIPResp)
    (elapsed : ℚ) (r : GetBalanceRequest) (afType : Option String) :
    Except String UCIPResp × AIRState :=
  executeRequest st net elapsed (getBalanceRequest r) none afType

/-- `AIRService.refill`: build the request and delegate to `executeRequest`. -/
def refill (st : AIRState) (net : ClientM → UCIPRequest → Except String UCIPResp)
    (elapsed : ℚ) (r : RefillRequest) (genId : String) (afType : Option String) :
    Except String UCIPResp × AIRState :=
  executeRequest st net elapsed (refillRequest r genId) none afType

/-- `AIRService.updateBalance`: build the request and delegate to
`executeRequest`. -/
def updateBalance (st : AIRState) (net : ClientM → UCIPRequest → Except String UCIPResp)
    (elapsed : ℚ) (r : UpdateBalanceRequest) (genId : String) (afType : Option String) :
    Except String UCIPResp × AIRState :=
  executeRequest st net elapsed (updateBalanceRequest r genId) none afType

/-- `AIRService.getAccountDetails`: build the request and delegate to
`executeRequest`. -/
def getAccountDetails (st : AIRState) (net : ClientM → UCIPRequest → Except String UCIPResp)
    (elapsed : ℚ) (r : GetAccountDetailsRequest) (afType : Option String) :
    Except String UCIPResp × AIRState :=
  executeRequest st net elapsed (getAccountDetailsRequest r) none afType

/-- `AIRService.getStats` (lines 510-512): a snapshot copy of the statistics
record. -/
def getStats (st : AIRState) : TransactionStats := st.stats

/-- `AIRService.shutdown` (lines 562-569): stop the reporting timer, clear the
client registry and the routing table, drop the ready flag.  The statistics
record and the round-robin cursors are not touched. -/
def shutdown (st : AIRState) : AIRState :=
  { st with statsReporting := false, clients := [], routingTable := [],
            initialized := false }

/-! ### Concrete states and the simpler gateway properties -/

/-- The all-zero statistics record produced by the constructor. -/
def statsZero : TransactionStats :=
  { totalRequests := 0, successfulRequests := 0, failedRequests := 0,
    averageResponseTime := 0, lastResetTime := 0 }

/-- Clients of three configured nodes. -/
def clientA : ClientM := ⟨"http://a:80/Air"⟩

def clientB : ClientM := ⟨"http://b:80/Air"⟩

def clientC : ClientM := ⟨"http://c:80/Air"⟩

/-- Destinations of the three nodes under routing key "k". -/
def destA : RoutingDestination := ⟨"A", "a", 80, "http://a:80/Air", true⟩

def destB : RoutingDestination := ⟨"B", "b", 80, "http://b:80/Air", true⟩

def destC : RoutingDestination := ⟨"C", "c", 80, "http://c:80/Air", true⟩

/-- An initialized service with nodes A, B, C all grouped under routing key
"k" and the cursor at 0. -/
def stABC : AIRState :=
  { clients := [("A", clientA), ("B", clientB), ("C", clientC)],
    routingTable := [("k", [destA, destB, destC])],
    roundRobinIndexes := [("k", 0)],
    stats := statsZero, statsReporting := false, initialized := true }

/-- An initialized service with nodes A and B under routing key "k". -/
def stAB : AIRState :=
  { clients := [("A", clientA), ("B", clientB)],
    routingTable := [("k", [destA, destB])],
    roundRobinIndexes := [("k", 0)],
    stats := statsZero, statsReporting := false, initialized := true }

/-- A service that has not been initialized. -/
def stUninit : AIRState :=
  { clients := [], routingTable := [], roundRobinIndexes := [],
    stats := statsZero, statsReporting := false, initialized := false }

/-- C4 counterexample: the claim says a supplied `nodeId` is always looked up
directly (failing when unregistered, the routing key ignored and its cursor
untouched), but `if (nodeId)` is a truthiness test: supplying the empty
string as `nodeId` with routing key "k" makes `stAB` — which has no client
registered under "" — route by "k", return node A's client and advance the
cursor. -/
theorem c4_empty_nodeid_counterexample :
    assoc stAB.clients "" = none ∧
    (getClient stAB (some "") (some "k")).1 = .ok clientA ∧
    (getClient stAB (some "") (some "k")).2.roundRobinIndexes = [("k", 1)] :=
  ⟨rfl, rfl, rfl⟩

/-- C4 (amended): for every selection that supplies a *non-empty* `nodeId`,
the router returns the registered client for that id with the state — hence
every routing cursor — unchanged, irrespective of any routing key also
supplied, and fails with the unknown-node error when no client is registered
under the id; the routing-key branch `getClientByAf` is reached exactly when
`nodeId` is absent or empty. -/
theorem c4_routing_precedence (st : AIRState) (nid : String) (rk : Option String)
    (h : nid ≠ "") :
    (∀ c, assoc st.clients nid = some c → getClient st (some nid) rk = (.ok c, st)) ∧
    (assoc st.clients nid = none →
      getClient st (some nid) rk = (.error ("AIR client not found for node: " ++ nid), st)) ∧
    (∀ rk2, getClient st none rk2 = getClientByAf st rk2) ∧
    (∀ rk2, getClient st (some "") rk2 = getClientByAf st rk2) := by
  refine ⟨fun c hc => ?_, fun hc => ?_, fun rk2 => rfl, fun rk2 => by simp [getClient]⟩
  · simp [getClient, h, hc]
  · simp [getClient, h, hc]

/-- Witness for C4: node id "A" in `stAB` returns node A's client with the
state unchanged, even though routing key "k" is also supplied. -/
theorem c4_routing_precedence_witness :
    ("A" : String) ≠ "" ∧ getClient stAB (some "A") (some "k") = (.ok clientA, stAB) :=
  ⟨by decide, (c4_routing_precedence stAB "A" (some "k") (by decide)).1 clientA rfl⟩

/-- C6: the statistics update is the exponential moving average
`0.1 * elapsed + 0.9 * previous` regardless of the success flag, and from a
zero average one call with elapsed 100 gives exactly 10 and a following call
with elapsed 200 gives exactly 29. -/
theorem c6_stats_ewma :
    (∀ (s : TransactionStats) (success : Bool) (t : ℚ),
      (updateStats s success t).averageResponseTime
        = (1 / 10) * t + (9 / 10) * s.averageResponseTime) ∧
    (∀ s0 : TransactionStats, s0.averageResponseTime = 0 →
      (updateStats s0 true 100).averageResponseTime = 10 ∧
      (updateStats (updateStats s0 true 100) true 200).averageResponseTime = 29) := by
  have hgen : ∀ (s : TransactionStats) (success : Bool) (t : ℚ),
      (updateStats s success t).averageResponseTime
        = (1 / 10) * t + (9 / 10) * s.averageResponseTime := by
    intro s success t
    cases success <;> (simp only [updateStats]; norm_num)
  refine ⟨hgen, fun s0 h0 => ⟨?_, ?_⟩⟩
  · rw [hgen, h0]; norm_num
  · rw [hgen, hgen, h0]; norm_num

/-- Witness for C6 starting from the constructor's all-zero statistics. -/
theorem c6_stats_ewma_witness :
    statsZero.averageResponseTime = 0 ∧
    (updateStats statsZero true 100).averageResponseTime = 10 ∧
    (updateStats (updateStats statsZero true 100) true 200).averageResponseTime = 29 :=
  ⟨rfl, c6_stats_ewma.2 statsZero rfl⟩

/-- C7: calling `executeRequest` — and hence any of the four typed
operations, which delegate to it — on a non-initialized service throws the
not-initialized error and returns the state unchanged, so in particular every
field of `TransactionStats` is untouched. -/
theorem c7_uninitialized_no_stats (st : AIRState)
    (net : ClientM → UCIPRequest → Except String UCIPResp) (elapsed : ℚ)
    (req : UCIPRequest) (nodeId afType : Option String)
    (rGB : GetBalanceRequest) (rRef : RefillRequest) (rUB : UpdateBalanceRequest)
    (rGAD : GetAccountDetailsRequest) (genId : String)
    (h : st.initialized = false) :
    executeRequest st net elapsed req nodeId afType
      = (.error "AIR service not initialized", st) ∧
    getBalance st net elapsed rGB afType = (.error "AIR service not initialized", st) ∧
    refill st net elapsed rRef genId afType = (.error "AIR service not initialized", st) ∧
    updateBalance st net elapsed rUB genId afType
      = (.error "AIR service not initialized", st) ∧
    getAccountDetails st net elapsed rGAD afType
      = (.error "AIR service not initialized", st) ∧
    (executeRequest st net elapsed req nodeId afType).2.stats = st.stats := by
  refine ⟨?_, ?_, ?_, ?_, ?_, ?_⟩ <;>
    simp [executeRequest, getBalance, refill, updateBalance, getAccountDetails, h]

/-- Witness for C7 on the non-initialized state. -/
theorem c7_uninitialized_no_stats_witness :
    stUninit.initialized = false ∧
    executeRequest stUninit (fun _ _ => .error "down") 5
        { methodName := "GetBalanceAndDate", params := [] } none none
      = (.error "AIR service not initialized", stUninit) ∧
    (executeRequest stUninit (fun _ _ => .error "down") 5
        { methodName := "GetBalanceAndDate", params := [] } none none).2.stats
      = stUninit.stats :=
  ⟨rfl,
    (c7_uninitialized_no_stats stUninit (fun _ _ => .error "down") 5
      { methodName := "GetBalanceAndDate", params := [] } none none
      ⟨"1234", none⟩ ⟨"1234", 10, none, none, none⟩ ⟨"1234", 10, none, none⟩
      ⟨"1234", none⟩ "TXN0" rfl).1,
    (c7_uninitialized_no_stats stUninit (fun _ _ => .error "down") 5
      { methodName := "GetBalanceAndDate", params := [] } none none
      ⟨"1234", none⟩ ⟨"1234", 10, none, none, none⟩ ⟨"1234", 10, none, none⟩
      ⟨"1234", none⟩ "TXN0" rfl).2.2.2.2.2⟩

/-- C8 counterexample: the claim says a caller-supplied flags value is used
as-is, but `request.requestedInformationFlags || 0xFFFFFFFF` tests
truthiness: a supplied value of `0` is replaced by the all-bits-set default
4294967295. -/
theorem c8_zero_flags_counterexample :
    getAccountDetailsRequest ⟨"123", some 0⟩ =
      { methodName := "GetAccountDetails",
        params := [.vStruct [("subscriberNumber", .vStr "123"),
                             ("requestedInformationFlags", .vInt 4294967295)]] } ∧
    (4294967295 : Int) ≠ 0 :=
  ⟨rfl, by decide⟩

/-- C8 (amended): the request built by `getAccountDetails` carries the
caller-supplied `requestedInformationFlags` whenever that value is supplied
and nonzero, and the all-bits-set 32-bit default 4294967295 when the field is
omitted (or supplied as the falsy value 0). -/
theorem c8_account_details_flags (sub : String) (n : Int) (hn : n ≠ 0) :
    getAccountDetailsRequest ⟨sub, some n⟩ =
      { methodName := "GetAccountDetails",
        params := [.vStruct [("subscriberNumber", .vStr sub),
                             ("requestedInformationFlags", .vInt n)]] } ∧
    getAccountDetailsRequest ⟨sub, none⟩ =
      { methodName := "GetAccountDetails",
        params := [.vStruct [("subscriberNumber", .vStr sub),
                             ("requestedInformationFlags", .vInt 4294967295)]] } := by
  constructor <;> simp [getAccountDetailsRequest, jsOrNum, hn]

/-- Witness for C8 with supplied flags 7 (used as-is). -/
theorem c8_account_details_flags_witness :
    (7 : Int) ≠ 0 ∧
    getAccountDetailsRequest ⟨"123", some 7⟩ =
      { methodName := "GetAccountDetails",
        params := [.vStruct [("subscriberNumber", .vStr "123"),
                             ("requestedInformationFlags", .vInt 7)]] } :=
  ⟨by decide, (c8_account_details_flags "123" 7 (by decide)).1⟩

/-- C9: `shutdown` clears the registry and routing table and drops the ready
flag, but leaves the statistics record — hence the `getStats` snapshot — and
the round-robin cursors exactly as they were. -/
theorem c9_shutdown_preserves_stats (st : AIRState) :
    getStats (shutdown st) = getStats st ∧
    (shutdown st).stats = st.stats ∧
    (shutdown st).roundRobinIndexes = st.roundRobinIndexes ∧
    (shutdown st).clients = [] ∧ (shutdown st).routingTable = [] ∧
    (shutdown st).initialized = false :=
  ⟨rfl, rfl, rfl, rfl, rfl, rfl⟩

/-- C10: the encoder is a total function on every JavaScript input — it always
returns a wire element — and inputs matching none of the tagged variants fall
through to the `String(value)` branch: `null` encodes as the string element
"null" and `undefined` as the string element "undefined". -/
theorem c10_encoder_total_fallback :
    (∀ v : Value, ∃ w : Wire, buildValue v = w) ∧
    buildValue .vNull = .wString "null" ∧
    buildValue .vUndefined = .wString "undefined" :=
  ⟨fun v => ⟨buildValue v, rfl⟩, rfl, rfl⟩

/-! ### Round-robin selection (C3) -/

theorem assoc_setKey_self {α : Type} (l : List (String × α)) (k : String) (v : α) :
    assoc (setKey l k v) k = some v := by
  induction l with
  | nil => simp [setKey, assoc]
  | cons p t ih =>
    cases p with
    | mk k2 w => by_cases h : k2 = k <;> simp [setKey, assoc, h, ih]

/-- One routed selection: with the key registered, a nonempty destination
list and the cursor at `c`, `getClient` returns the client of destination
`c % len` and stores cursor `(c + 1) % len`, leaving everything else
unchanged. -/
theorem getClient_route_step (st : AIRState) (k : String)
    (dests : List RoutingDestination) (c : Nat) (f : Nat → ClientM) (hk : k ≠ "")
    (hrt : assoc st.routingTable k = some dests) (hlen : 0 < dests.length)
    (hcur : assoc st.roundRobinIndexes k = some c)
    (hcl : ∀ (j : Nat) (hj : j < dests.length),
      assoc st.clients (dests.get ⟨j, hj⟩).nodeId = some (f j)) :
    getClient st none (some k) =
      (.ok (f (c % dests.length)),
       { st with roundRobinIndexes :=
           setKey st.roundRobinIndexes k ((c + 1) % dests.length) }) := by
  have hne : dests.length ≠ 0 := Nat.pos_iff_ne_zero.mp hlen
  have hc2 := hcl (c % dests.length) (Nat.mod_lt _ hlen)
  simp only [List.get_eq_getElem] at hc2
  simp [getClient, getClientByAf, hk, hrt, hcur, hne, hc2]

/-- Over `n` sequential routed selections the destinations are visited
cyclically from the starting cursor, and the cursor advances by `n` modulo
the list length. -/
theorem selectRun_spec (dests : List RoutingDestination) (f : Nat → ClientM)
    (k : String) (hk : k ≠ "") (hlen : 0 < dests.length) :
    ∀ (n : Nat) (st : AIRState) (c : Nat), c < dests.length →
      assoc st.routingTable k = some dests →
      assoc st.roundRobinIndexes k = some c →
      (∀ (j : Nat) (hj : j < dests.length),
        assoc st.clients (dests.get ⟨j, hj⟩).nodeId = some (f j)) →
      (selectRun st k n).1
          = (List.range n).map (fun i => Except.ok (f ((c + i) % dests.length))) ∧
      assoc (selectRun st k n).2.roundRobinIndexes k
          = some ((c + n) % dests.length) := by
  intro n
  induction n with
  | zero =>
    intro st c hc hrt hcur hcl
    simpa [selectRun, Nat.mod_eq_of_lt hc] using hcur
  | succ n ih =>
    intro st c hc hrt hcur hcl
    have hstep := getClient_route_step st k dests c f hk hrt hlen hcur hcl
    obtain ⟨ih1, ih2⟩ := ih
      { st with roundRobinIndexes :=
          setKey st.roundRobinIndexes k ((c + 1) % dests.length) }
      ((c + 1) % dests.length) (Nat.mod_lt _ hlen) hrt
      (assoc_setKey_self _ _ _) hcl
    have hshift : ∀ i : Nat,
        ((c + 1) % dests.length + i) % dests.length = (c + (i + 1)) % dests.length := by
      intro i
      rw [Nat.mod_add_mod]
      ring_nf
    constructor
    · simp only [selectRun, hstep]
      rw [ih1, List.range_succ_eq_map, List.map_cons, List.map_map]
      simp only [Function.comp, hshift, Nat.zero_add, Nat.add_zero]
      rfl
    · simp only [selectRun, hstep]
      rw [ih2, hshift n]

/-- How often each residue occurs among `0 % len, …, (n-1) % len`. -/
theorem count_mod_range (len r : Nat) (hlen : 0 < len) (hr : r < len) :
    ∀ n : Nat, ((List.range n).map (fun i => i % len)).count r
      = n / len + if r < n % len then 1 else 0 := by
  intro n
  induction n with
  | zero => simp
  | succ n ih =>
    have hd : len * (n / len) + n % len = n := Nat.div_add_mod n len
    have hm : n % len < len := Nat.mod_lt _ hlen
    have hstep : ((n + 1) % len = if n % len + 1 = len then 0 else n % len + 1) ∧
        ((n + 1) / len = if n % len + 1 = len then n / len + 1 else n / len) := by
      by_cases h : n % len + 1 = len
      · have he : n + 1 = len * (n / len + 1) := by rw [Nat.mul_succ]; omega
        rw [he, Nat.mul_mod_right, Nat.mul_div_cancel_left _ hlen]
        simp [h]
      · have h1 : n % len + 1 < len := by omega
        have he : n + 1 = len * (n / len) + (n % len + 1) := by omega
        rw [he, Nat.mul_add_mod, Nat.mul_add_div hlen,
          Nat.mod_eq_of_lt h1, Nat.div_eq_of_lt h1]
        simp [h]
    rw [List.range_succ, List.map_append, List.count_append, ih]
    have hsingle : List.count r (List.map (fun i => i % len) [n]) =
        if n % len = r then 1 else 0 := by
      simp [List.count_cons]
    rw [hsingle, hstep.1, hstep.2]
    split_ifs <;> omega

/-- `(n + len - 1) / len` is the ceiling of `n / len`. -/
theorem ceil_div_eq (len n : Nat) (hlen : 0 < len) :
    (n + len - 1) / len = n / len + if n % len = 0 then 0 else 1 := by
  have hd : len * (n / len) + n % len = n := Nat.div_add_mod n len
  have hm : n % len < len := Nat.mod_lt _ hlen
  by_cases h : n % len = 0
  · have hlt : len - 1 < len := by omega
    have he : n + len - 1 = len * (n / len) + (len - 1) := by omega
    rw [he, Nat.mul_add_div hlen, Nat.div_eq_of_lt hlt]
    simp [h]
  · have hlt : n % len - 1 < len := by omega
    have he : n + len - 1 = len * (n / len + 1) + (n % len - 1) := by
      rw [Nat.mul_succ]; omega
    rw [he, Nat.mul_add_div hlen, Nat.div_eq_of_lt hlt]
    simp [h]

/-- C3: starting from cursor 0, `n` sequential selections for a fixed routing
key visit the configured destinations cyclically in configuration order (the
`i`-th selection returns the client of destination `i % len`), leave the
cursor at `n % len`, and pick each destination `⌊n/len⌋` or `⌈n/len⌉` times;
concretely, with destinations `[A, B, C]` and cursor 0, seven selections
return the clients of `A,B,C,A,B,C,A` and leave the cursor at 1. -/
theorem c3_round_robin (dests : List RoutingDestination) (f : Nat → ClientM)
    (k : String) (st : AIRState) (n : Nat) (hk : k ≠ "") (hlen : 0 < dests.length)
    (hrt : assoc st.routingTable k = some dests)
    (hcur : assoc st.roundRobinIndexes k = some 0)
    (hcl : ∀ (j : Nat) (hj : j < dests.length),
      assoc st.clients (dests.get ⟨j, hj⟩).nodeId = some (f j)) :
    (selectRun st k n).1
        = (List.range n).map (fun i => Except.ok (f (i % dests.length))) ∧
    assoc (selectRun st k n).2.roundRobinIndexes k = some (n % dests.length) ∧
    (∀ j : Nat, j < dests.length →
      ((List.range n).map (fun i => i % dests.length)).count j = n / dests.length ∨
      ((List.range n).map (fun i => i % dests.length)).count j
        = (n + dests.length - 1) / dests.length) ∧
    (selectRun stABC "k" 7).1
        = [.ok clientA, .ok clientB, .ok clientC, .ok clientA, .ok clientB,
           .ok clientC, .ok clientA] ∧
    assoc (selectRun stABC "k" 7).2.roundRobinIndexes "k" = some 1 := by
  obtain ⟨h1, h2⟩ := selectRun_spec dests f k hk hlen n st 0 hlen hrt hcur hcl
  refine ⟨by simpa using h1, by simpa using h2, fun j hj => ?_, rfl, rfl⟩
  rw [count_mod_range dests.length j hlen hj n]
  by_cases h : j < n % dests.length
  · right
    rw [ceil_div_eq _ _ hlen]
    have hnz : ¬ (n % dests.length = 0) := by omega
    simp [h, hnz]
  · left
    simp [h]

/-- The clients of `stABC` by destination index. -/
def fABC : Nat → ClientM :=
  fun j => if j = 0 then clientA else if j = 1 then clientB else clientC

/-- Witness for C3: the seven concrete selections on `stABC`. -/
theorem c3_round_robin_witness :
    (selectRun stABC "k" 7).1
        = [.ok clientA, .ok clientB, .ok clientC, .ok clientA, .ok clientB,
           .ok clientC, .ok clientA] ∧
    assoc (selectRun stABC "k" 7).2.roundRobinIndexes "k" = some 1 := by
  have h := c3_round_robin [destA, destB, destC] fABC "k" stABC 7 (by decide)
    (by decide) rfl rfl (by decide)
  exact ⟨h.2.2.2.1, h.2.2.2.2⟩
